import Mathlib

/-!
# Verification of the portfolio control-board logic

Shallow embedding of the numeric/logic core of the portfolio UI:
the knob angle/value converters (`Knob`), the control-state store (`App`),
the dial navigation and slider readouts (`DialNavigation`), the derived
column-width and timeline-stage computations (`ProjectContent`), and the
LCD display formatter (`DisplayScreen`).

JavaScript numbers are modelled as rationals (`ℚ`); note that in Lean
division by zero yields `0`, while in JavaScript it yields `Infinity`/`NaN`.
The places where that difference matters are called out at the theorems
concerned.
-/

/-- JavaScript truncation toward zero, as used by the `%` remainder
operator (`Math.trunc` semantics). -/
def jsTrunc (q : ℚ) : ℤ :=
  if q < 0 then ⌈q⌉ else ⌊q⌋

/-- JavaScript `%` (remainder): the result has the sign of the dividend,
with `a % b = a - b * trunc(a / b)`. -/
def jsRem (a b : ℚ) : ℚ :=
  a - b * (jsTrunc (a / b) : ℚ)

/-- JavaScript `Math.round`: rounds half toward positive infinity. -/
def jsRound (q : ℚ) : ℤ :=
  ⌊q + 1 / 2⌋

namespace Knob

/-- `valueToAngle` from `Knob.tsx`: convert a value (0-100) to a rotation
angle (0 to 360 degrees), `(val / 100) * 360`. -/
def valueToAngle (val : ℚ) : ℚ :=
  val / 100 * 360

/-- `angleToValue` from `Knob.tsx`: normalize the angle with `% 360`,
add 360 if negative, then `(normalized / 360) * 100`. -/
def angleToValue (angle : ℚ) : ℚ :=
  let normalized := jsRem angle 360
  let normalized := if normalized < 0 then normalized + 360 else normalized
  normalized / 360 * 100

/-- `handleWheel` from `Knob.tsx`: `delta = deltaY > 0 ? -2 : 2`, then
`Math.max(0, Math.min(100, value + delta))`. -/
def handleWheel (deltaY value : ℚ) : ℚ :=
  let delta : ℚ := if 0 < deltaY then -2 else 2
  max 0 (min 100 (value + delta))

end Knob

namespace App

/-- The `viewMode` field of `ControlState` (`'hero' | 'breakdown'`). -/
inductive ViewMode
  | hero
  | breakdown
deriving DecidableEq

/-- `ControlState` from `App.tsx`: the seven control fields. -/
structure ControlState where
  architectureEmphasis : ℚ
  productDesignEmphasis : ℚ
  softwareEmphasis : ℚ
  viewMode : ViewMode
  showMetadata : Bool
  detailDepth : ℚ
  timelineProgress : ℚ
deriving DecidableEq

/-- The initial `controls` state from `App.tsx`. -/
def initialControls : ControlState :=
  { architectureEmphasis := 33.33
    productDesignEmphasis := 33.33
    softwareEmphasis := 33.33
    viewMode := .hero
    showMetadata := false
    detailDepth := 100
    timelineProgress := 100 }

/-- A key of `ControlState` (`keyof ControlState` in `App.tsx`). -/
inductive ControlKey
  | architectureEmphasis
  | productDesignEmphasis
  | softwareEmphasis
  | viewMode
  | showMetadata
  | detailDepth
  | timelineProgress
deriving DecidableEq

/-- A value passed to `updateControl` (typed `any` in the source; in the
application each key only ever receives a value of its own field's type,
which is what this sum type captures). -/
inductive ControlValue
  | num (q : ℚ)
  | mode (m : ViewMode)
  | flag (b : Bool)

/-- `updateControl` from `App.tsx`:
`setControls(prev => ({ ...prev, [key]: value }))` — replace exactly the
named field with the given value, leaving the others untouched.  A write
whose value kind does not match the field's type never occurs in the
application and is modelled as a no-op. -/
def updateControl (key : ControlKey) (value : ControlValue) (prev : ControlState) :
    ControlState :=
  match key, value with
  | .architectureEmphasis, .num q => { prev with architectureEmphasis := q }
  | .productDesignEmphasis, .num q => { prev with productDesignEmphasis := q }
  | .softwareEmphasis, .num q => { prev with softwareEmphasis := q }
  | .viewMode, .mode m => { prev with viewMode := m }
  | .showMetadata, .flag b => { prev with showMetadata := b }
  | .detailDepth, .num q => { prev with detailDepth := q }
  | .timelineProgress, .num q => { prev with timelineProgress := q }
  | _, _ => prev

end App

namespace DialNavigation

/-- `handleWheel` from `DialNavigation.tsx`: scroll down
(`e.deltaY > 0`) moves to `(activeIndex + 1) % projects.length`; scroll
up moves to `activeIndex - 1` only when `activeIndex > 0`, otherwise the
event is a no-op (the index stays). -/
def handleWheel (deltaY : ℚ) (activeIndex count : ℕ) : ℕ :=
  if 0 < deltaY then
    (activeIndex + 1) % count
  else
    if 0 < activeIndex then activeIndex - 1 else activeIndex

/-- `getDialRotation` from `DialNavigation.tsx`:
`angleStep = 180 / (total - 1)`, `itemAngle = 90 - activeIdx * angleStep`,
returns `-itemAngle`.  There is no special case for `total = 1`: there the
source divides by zero (yielding `NaN` in JavaScript; in this rational
embedding `180 / 0 = 0`). -/
def getDialRotation (activeIdx total : ℕ) : ℚ :=
  let angleStep := 180 / ((total : ℚ) - 1)
  let itemAngle := 90 - (activeIdx : ℚ) * angleStep
  Neg.neg itemAngle

/-- The `stages` array local to `handleSliderInteraction` in
`DialNavigation.tsx`. -/
def stages : List String :=
  ["CONCEPT", "DEVELOP", "REFINE", "BUILD", "FINAL"]

/-- The detail tier computed in `handleSliderInteraction`:
`Math.ceil((value / 100) * 5)`. -/
def detailTier (value : ℚ) : ℤ :=
  ⌈value / 100 * 5⌉

/-- The stage index computed in `handleSliderInteraction`:
`Math.floor((value / 100) * (stages.length - 1))`. -/
def stageIndex (value : ℚ) : ℤ :=
  ⌊value / 100 * ((stages.length : ℚ) - 1)⌋

/-- The `controlValue` string set by `handleSliderInteraction` in
`DialNavigation.tsx` while a slider is being interacted with: for the
`DETAIL` slider it is `` `${depth}/5` `` with
`depth = Math.ceil((value / 100) * 5)`; for any other label (the `STAGE`
slider) it is `stages[Math.floor((value / 100) * (stages.length - 1))]`. -/
def handleSliderControlValue (label : String) (value : ℚ) : String :=
  if label = "DETAIL" then
    toString (detailTier value) ++ "/5"
  else
    stages.getD (stageIndex value).toNat ""

end DialNavigation

namespace ProjectContent

/-- `total` from `ProjectContent`: the sum of the three emphasis values. -/
def total (c : App.ControlState) : ℚ :=
  c.architectureEmphasis + c.productDesignEmphasis + c.softwareEmphasis

/-- `archWidth` from `ProjectContent`:
`(controls.architectureEmphasis / total) * 100`.  No guard for
`total = 0` exists in the source. -/
def archWidth (c : App.ControlState) : ℚ :=
  c.architectureEmphasis / total c * 100

/-- `prodWidth` from `ProjectContent`:
`(controls.productDesignEmphasis / total) * 100`. -/
def prodWidth (c : App.ControlState) : ℚ :=
  c.productDesignEmphasis / total c * 100

/-- `softWidth` from `ProjectContent`:
`(controls.softwareEmphasis / total) * 100`. -/
def softWidth (c : App.ControlState) : ℚ :=
  c.softwareEmphasis / total c * 100

/-- `getTimelineStage` from `ProjectContent`: threshold buckets on
`controls.timelineProgress` at 20/40/60/80. -/
def getTimelineStage (c : App.ControlState) : String :=
  let progress := c.timelineProgress
  if progress < 20 then "CONCEPT"
  else if progress < 40 then "DEVELOPMENT"
  else if progress < 60 then "REFINEMENT"
  else if progress < 80 then "BUILD"
  else "FINAL"

/-- The all-zero-emphasis control state: each knob turned to 0 (the other
fields at their defaults).  Used as the failing input for the column-width
computation. -/
def zeroEmphasisControls : App.ControlState :=
  { App.initialControls with
    architectureEmphasis := 0
    productDesignEmphasis := 0
    softwareEmphasis := 0 }

end ProjectContent

namespace DisplayScreen

/-- The `disciplineValues` prop of `DisplayScreen`. -/
structure DisciplineValues where
  architecture : ℚ
  productDesign : ℚ
  software : ℚ

/-- The `disciplines` array built in `getDisplayContent`. -/
def disciplines (d : DisciplineValues) : List (String × ℚ) :=
  [("ARCH", d.architecture), ("PROD", d.productDesign), ("SOFT", d.software)]

/-- The idle-cycle timer tick from `DisplayScreen`:
`setIdleCycle(prev => (prev + 1) % 3)`. -/
def cycleTick (prev : ℕ) : ℕ :=
  (prev + 1) % 3

/-- The project code shown in non-idle mode:
`currentProjectIndex === 0 ? 'AM' : `0${currentProjectIndex}` `. -/
def projectCode (currentProjectIndex : ℕ) : String :=
  if currentProjectIndex = 0 then "AM" else "0" ++ toString currentProjectIndex

/-- `getDisplayContent` from `DisplayScreen`: the two LCD lines.  Shows the
active control's label/value when one is being manipulated; otherwise the
project code while not idle; otherwise (idle mode, when discipline values
were supplied) the discipline name/percentage pair selected by `idleCycle`.
The source indexes `disciplines[idleCycle]` where `idleCycle` is only ever
set by `cycleTick` (hence `< 3`); out-of-range indices are modelled with
`List.getD`. -/
def getDisplayContent (activeControl controlValue : Option String)
    (idleMode : Bool) (idleCycle : ℕ) (disciplineValues : Option DisciplineValues)
    (currentProjectIndex : ℕ) : String × String :=
  match activeControl, controlValue with
  | some ac, some cv => (ac, cv)
  | _, _ =>
    if !idleMode then
      (projectCode currentProjectIndex, "")
    else
      match disciplineValues with
      | some d =>
        let current := (disciplines d).getD idleCycle ("", 0)
        (current.1, toString (jsRound current.2) ++ "%")
      | none => (projectCode currentProjectIndex, "")

end DisplayScreen

/-- C1, counterexample: the round-trip `angleToValue (valueToAngle v) = v`
fails at the endpoint `v = 100`: `valueToAngle 100 = 360`, and
`angleToValue 360` normalizes `360 % 360` to `0`, giving `0`, not `100`. -/
theorem c1_roundTrip_counterexample :
    Knob.angleToValue (Knob.valueToAngle 100) = 0 ∧
    Knob.angleToValue (Knob.valueToAngle 100) ≠ 100 := by
  constructor <;> norm_num [Knob.angleToValue, Knob.valueToAngle, jsRem, jsTrunc]

/-- C1, amended: for every value `v` in `[0, 100)` (the right endpoint
excluded), converting the knob value to an angle and back is the identity:
`angleToValue (valueToAngle v) = v`, exactly over the rationals. -/
theorem c1_roundTrip (v : ℚ) (h0 : 0 ≤ v) (h1 : v < 100) :
    Knob.angleToValue (Knob.valueToAngle v) = v := by
  have hge : (0 : ℚ) ≤ v / 100 := by positivity
  have hlt : v / 100 < 1 := (div_lt_one (by norm_num)).mpr h1
  have htr : jsTrunc (v / 100 * 360 / 360) = 0 := by
    have hq : v / 100 * 360 / 360 = v / 100 := by ring
    unfold jsTrunc
    rw [hq, if_neg (not_lt.mpr hge)]
    exact Int.floor_eq_zero_iff.mpr (Set.mem_Ico.mpr ⟨hge, hlt⟩)
  have hrem : jsRem (v / 100 * 360) 360 = v / 100 * 360 := by
    unfold jsRem
    rw [htr]
    norm_num
  have hnn : ¬ (v / 100 * 360 < 0) := not_lt.mpr (by positivity)
  simp only [Knob.angleToValue, Knob.valueToAngle, hrem, if_neg hnn]
  ring

/-- C1, witness: the round-trip identity evaluated at `v = 50`. -/
theorem c1_roundTrip_witness :
    Knob.angleToValue (Knob.valueToAngle 50) = 50 :=
  c1_roundTrip 50 (by norm_num) (by norm_num)

/-- C2: the column-width computation has no zero-sum guard.  At the
all-zero emphasis state the source computes `0 / 0 * 100` for each width
(`NaN` in JavaScript; `0` in this rational embedding, where `x / 0 = 0`) —
in either semantics the widths are not the equal thirds `100 / 3` the spec
requires. -/
theorem c2_zeroSum_eval :
    ProjectContent.archWidth ProjectContent.zeroEmphasisControls = 0 ∧
    ProjectContent.prodWidth ProjectContent.zeroEmphasisControls = 0 ∧
    ProjectContent.softWidth ProjectContent.zeroEmphasisControls = 0 ∧
    ProjectContent.archWidth ProjectContent.zeroEmphasisControls ≠ 100 / 3 := by
  norm_num [ProjectContent.archWidth, ProjectContent.prodWidth,
    ProjectContent.softWidth, ProjectContent.total,
    ProjectContent.zeroEmphasisControls, App.initialControls]

/-- C3, counterexample: the store's `updateControl` does not clamp: writing
`150` to `architectureEmphasis` stores `150` itself, which is outside the
field's `[0, 100]` range. -/
theorem c3_noClamp_counterexample :
    (App.updateControl .architectureEmphasis (.num 150)
      App.initialControls).architectureEmphasis = 150 ∧
    ¬ (App.updateControl .architectureEmphasis (.num 150)
      App.initialControls).architectureEmphasis ≤ 100 := by
  constructor
  · rfl
  · norm_num [App.updateControl]

/-- C3, amended: for every numeric control key and every value, the store's
set operation (`updateControl`) stores the value exactly as given — it never
rejects a call and never clamps; range enforcement happens in the input
handlers before `set` is called, not in the store. -/
theorem c3_set_stores_unchanged (v : ℚ) (s : App.ControlState) :
    (App.updateControl .architectureEmphasis (.num v) s).architectureEmphasis = v ∧
    (App.updateControl .productDesignEmphasis (.num v) s).productDesignEmphasis = v ∧
    (App.updateControl .softwareEmphasis (.num v) s).softwareEmphasis = v ∧
    (App.updateControl .detailDepth (.num v) s).detailDepth = v ∧
    (App.updateControl .timelineProgress (.num v) s).timelineProgress = v :=
  ⟨rfl, rfl, rfl, rfl, rfl⟩

/-- C4: for every active index `i < count`, a forward scroll
(`deltaY > 0`) moves to `(i + 1) % count` — in particular from the last
index it wraps to `0` — while a backward scroll moves to `i - 1` only when
`i > 0` and is a no-op at `i = 0`. -/
theorem c4_scrollNavigation (dy : ℚ) (i count : ℕ) (h : i < count) :
    (0 < dy → DialNavigation.handleWheel dy i count = (i + 1) % count) ∧
    (0 < dy → i = count - 1 → DialNavigation.handleWheel dy i count = 0) ∧
    (¬ 0 < dy → 0 < i → DialNavigation.handleWheel dy i count = i - 1) ∧
    (¬ 0 < dy → i = 0 → DialNavigation.handleWheel dy i count = i) := by
  unfold DialNavigation.handleWheel
  refine ⟨fun hdy => by rw [if_pos hdy], fun hdy hi => ?_, fun hdy hi => ?_,
    fun hdy hi => ?_⟩
  · subst hi
    rw [if_pos hdy]
    have hc : count - 1 + 1 = count := by omega
    rw [hc, Nat.mod_self]
  · rw [if_neg hdy, if_pos hi]
  · subst hi
    rw [if_neg hdy, if_neg (lt_irrefl 0)]

/-- C4, witness: forward from the last of 7 projects wraps to 0; backward
from index 0 stays at 0. -/
theorem c4_scrollNavigation_witness :
    DialNavigation.handleWheel 1 6 7 = 0 ∧ DialNavigation.handleWheel (-1) 0 7 = 0 :=
  ⟨(c4_scrollNavigation 1 6 7 (by norm_num)).2.1 (by norm_num) rfl,
   (c4_scrollNavigation (-1) 0 7 (by norm_num)).2.2.2 (by norm_num) rfl⟩

/-- C5, counterexample: the degenerate case `total = 1` is NOT
special-cased by `getDialRotation`: the source divides by zero
(`180 / 0`), and the resulting rotation is not `0` (in this rational
embedding, where `180 / 0 = 0`, it is `-90`; in JavaScript it is `NaN` —
under neither semantics is it the claimed `0`). -/
theorem c5_total1_counterexample :
    DialNavigation.getDialRotation 0 1 ≠ 0 := by
  norm_num [DialNavigation.getDialRotation]

/-- C5, amended: for `total ≥ 2` the dial rotation equals
`-(90 - activeIdx * step)` with `step = 180 / (total - 1)`; the case
`total = 1` is not special-cased (the source divides by zero there and the
rotation is not 0). -/
theorem c5_dialRotation (activeIdx total : ℕ) (_h : 2 ≤ total) :
    DialNavigation.getDialRotation activeIdx total =
      -(90 - (activeIdx : ℚ) * (180 / ((total : ℚ) - 1))) :=
  rfl

/-- C5, witness: with 7 items, active index 3 (the middle) lands at
rotation 0. -/
theorem c5_dialRotation_witness :
    DialNavigation.getDialRotation 3 7 = 0 := by
  rw [c5_dialRotation 3 7 (by norm_num)]
  norm_num

/-- C6, counterexample: the detail-depth readout `ceil(v / 100 * 5)` is `0`
at `v = 0` (the LCD shows `0/5`), so it does not always lie in `1..5` over
`[0, 100]`. -/
theorem c6_tierZero_counterexample :
    DialNavigation.detailTier 0 = 0 ∧
    DialNavigation.handleSliderControlValue "DETAIL" 0 = "0/5" ∧
    ¬ (1 ≤ DialNavigation.detailTier 0) := by
  refine ⟨by norm_num [DialNavigation.detailTier], ?_, by norm_num [DialNavigation.detailTier]⟩
  have h0 : DialNavigation.detailTier 0 = 0 := by norm_num [DialNavigation.detailTier]
  simp only [DialNavigation.handleSliderControlValue, if_pos rfl, h0]
  rfl

/-- C6, amended: for every `detailDepth` in `(0, 100]` (zero excluded) the
detail readout is `` `${ceil(detailDepth / 100 * 5)}/5` `` and the tier lies
in `1..5`; at `detailDepth = 0` the tier is `0`. -/
theorem c6_detailTier (v : ℚ) (h0 : 0 < v) (h1 : v ≤ 100) :
    DialNavigation.handleSliderControlValue "DETAIL" v =
      toString (DialNavigation.detailTier v) ++ "/5" ∧
    1 ≤ DialNavigation.detailTier v ∧ DialNavigation.detailTier v ≤ 5 := by
  refine ⟨by simp [DialNavigation.handleSliderControlValue], ?_, ?_⟩
  · have hpos : (0 : ℤ) < ⌈v / 100 * 5⌉ := Int.lt_ceil.mpr (by push_cast; positivity)
    unfold DialNavigation.detailTier
    omega
  · have hle1 : v / 100 ≤ 1 := (div_le_one (by norm_num)).mpr h1
    have hle : v / 100 * 5 ≤ 5 := by linarith
    unfold DialNavigation.detailTier
    exact Int.ceil_le.mpr (by push_cast; linarith)

/-- C6, witness: the amended tier bounds evaluated at `detailDepth = 100`
(tier `5/5`). -/
theorem c6_detailTier_witness :
    1 ≤ DialNavigation.detailTier 100 ∧ DialNavigation.detailTier 100 ≤ 5 :=
  ⟨(c6_detailTier 100 (by norm_num) (by norm_num)).2.1,
   (c6_detailTier 100 (by norm_num) (by norm_num)).2.2⟩

/-- C7: one wheel tick on the knob yields `clamp(v ± 2, 0, 100)` (scroll
down is `-2`, otherwise `+2`); applying `+2` then `-2` returns `v` whenever
`v + 2 ≤ 100`; from `99` the pair `+2` then `-2` yields `98` — the clamp is
not symmetric at the boundary. -/
theorem c7_wheelTick (dy v : ℚ) (h0 : 0 ≤ v) (_h1 : v ≤ 100) :
    Knob.handleWheel dy v = max 0 (min 100 (v + if 0 < dy then -2 else 2)) ∧
    (v + 2 ≤ 100 → Knob.handleWheel 1 (Knob.handleWheel (-1) v) = v) ∧
    Knob.handleWheel 1 (Knob.handleWheel (-1) 99) = 98 := by
  refine ⟨rfl, fun h2 => ?_, by norm_num [Knob.handleWheel, min_def, max_def]⟩
  simp only [Knob.handleWheel]
  norm_num [min_def, max_def]
  split_ifs <;> linarith

/-- C7, witness: the `+2` then `-2` round trip evaluated at `v = 50`. -/
theorem c7_wheelTick_witness :
    Knob.handleWheel 1 (Knob.handleWheel (-1) 50) = 50 :=
  (c7_wheelTick 1 50 (by norm_num) (by norm_num)).2.1 (by norm_num)

/-- C8: for every control state whose three emphasis values are positive,
the three derived column widths `x / sum * 100` sum to exactly 100 over the
rationals. -/
theorem c8_widthsSum (c : App.ControlState)
    (ha : 0 < c.architectureEmphasis) (hp : 0 < c.productDesignEmphasis)
    (hs : 0 < c.softwareEmphasis) :
    ProjectContent.archWidth c + ProjectContent.prodWidth c +
      ProjectContent.softWidth c = 100 := by
  have hsum : ProjectContent.total c ≠ 0 := by
    unfold ProjectContent.total
    have : 0 < c.architectureEmphasis + c.productDesignEmphasis +
        c.softwareEmphasis := by linarith
    exact ne_of_gt this
  unfold ProjectContent.archWidth ProjectContent.prodWidth
    ProjectContent.softWidth at *
  unfold ProjectContent.total at *
  field_simp
  ring

/-- C8, witness: the widths sum evaluated at the initial control state
`(33.33, 33.33, 33.33)`. -/
theorem c8_widthsSum_witness :
    ProjectContent.archWidth App.initialControls +
      ProjectContent.prodWidth App.initialControls +
      ProjectContent.softWidth App.initialControls = 100 :=
  c8_widthsSum App.initialControls (by norm_num [App.initialControls])
    (by norm_num [App.initialControls]) (by norm_num [App.initialControls])

/-- C9: in idle-cycle mode (no active control, `idleMode` on, discipline
values supplied) the display shows the name/percentage pair selected by the
cycle index from `[ARCH, PROD, SOFT]`, and each cycle tick increments the
index modulo 3 — `0 → 1 → 2 → 0`, i.e. architecture → product → software →
architecture, wrapping indefinitely. -/
theorem c9_idleCycleDisplay (d : DisplayScreen.DisciplineValues)
    (i pidx : ℕ) (_h : i < 3) :
    (DisplayScreen.getDisplayContent none none true i (some d) pidx).1 =
      ((DisplayScreen.disciplines d).getD i ("", 0)).1 ∧
    (DisplayScreen.getDisplayContent none none true i (some d) pidx).2 =
      toString (jsRound ((DisplayScreen.disciplines d).getD i ("", 0)).2) ++ "%" ∧
    DisplayScreen.cycleTick i = (i + 1) % 3 ∧
    (DisplayScreen.cycleTick 0 = 1 ∧ DisplayScreen.cycleTick 1 = 2 ∧
      DisplayScreen.cycleTick 2 = 0) ∧
    ((DisplayScreen.disciplines d).getD 0 ("", 0)).1 = "ARCH" ∧
    ((DisplayScreen.disciplines d).getD 1 ("", 0)).1 = "PROD" ∧
    ((DisplayScreen.disciplines d).getD 2 ("", 0)).1 = "SOFT" :=
  ⟨rfl, rfl, rfl, ⟨rfl, rfl, rfl⟩, rfl, rfl, rfl⟩

/-- C9, witness: idle display at cycle index 1 shows `PROD`, and the tick
from index 2 wraps to 0. -/
theorem c9_idleCycleDisplay_witness :
    (DisplayScreen.getDisplayContent none none true 1 (some ⟨10, 20, 30⟩) 2).1 =
      "PROD" ∧ DisplayScreen.cycleTick 2 = 0 :=
  ⟨((c9_idleCycleDisplay ⟨10, 20, 30⟩ 1 2 (by norm_num)).1).trans rfl,
   (c9_idleCycleDisplay ⟨10, 20, 30⟩ 1 2 (by norm_num)).2.2.2.1.2.2⟩

/-- C10: during timeline-slider interaction the LCD second line is
`stages[floor(v / 100 * 4)]` over the abbreviated labels
`[CONCEPT, DEVELOP, REFINE, BUILD, FINAL]` (25-wide buckets); at `v = 20`
this gives `CONCEPT`, while the content panel's `getTimelineStage` (20-wide
buckets with boundaries at 20/40/60/80) gives `DEVELOPMENT` — the two
labels disagree. -/
theorem c10_stageDivergence :
    (∀ v : ℚ, DialNavigation.handleSliderControlValue "STAGE" v =
      DialNavigation.stages.getD (⌊v / 100 * 4⌋).toNat "") ∧
    DialNavigation.handleSliderControlValue "STAGE" 20 = "CONCEPT" ∧
    ProjectContent.getTimelineStage
      { App.initialControls with timelineProgress := 20 } = "DEVELOPMENT" ∧
    ("CONCEPT" : String) ≠ "DEVELOPMENT" := by
  have hall : ∀ v : ℚ, DialNavigation.handleSliderControlValue "STAGE" v =
      DialNavigation.stages.getD (⌊v / 100 * 4⌋).toNat "" := by
    intro v
    have h4 : ((DialNavigation.stages.length : ℚ) - 1) = 4 := by
      norm_num [DialNavigation.stages]
    simp only [DialNavigation.handleSliderControlValue, DialNavigation.stageIndex, h4]
    rw [if_neg (by decide)]
  refine ⟨hall, ?_, ?_, by decide⟩
  · rw [hall 20]
    norm_num
    rfl
  · norm_num [ProjectContent.getTimelineStage, App.initialControls]
